import Mathlib

/-!
Shallow embedding of the DocuChat backend (`src/backend/main.py`).

The backend is a FastAPI service holding three module-level globals
(`vector_store`, `qa_chain`, `current_document_name`).  External library
calls (document loaders, the text splitter, `Chroma.from_documents`,
`RetrievalQA.from_chain_type`, and running the QA chain) are modelled as
function parameters returning `Except`, so a run of an endpoint is a pure
function of the prior state, the filesystem, and the outcomes of those
external calls.  Strings are modelled as `List Char` (Python strings are
sequences of code points; slicing and `len` are per-character).
-/

namespace DocuChat

/-- A document or chunk as produced by the external loader / splitter
(`langchain.schema.Document`): only its `page_content` text matters here. -/
structure Doc where
  page_content : List Char
deriving DecidableEq, Repr

/-- The vector index built by `Chroma.from_documents`; `docs` are the embedded
chunks, and `collection.count()` is modelled as `docs.length`. -/
structure VectorStore where
  docs : List Doc
deriving DecidableEq, Repr

/-- The QA pipeline built by `RetrievalQA.from_chain_type`, bound to the index
it retrieves from. -/
structure RetrievalQA where
  retriever : VectorStore
deriving DecidableEq, Repr

/-- The three module-level globals of `main.py` (lines 40-42). -/
structure SystemState where
  vector_store : Option VectorStore
  qa_chain : Option RetrievalQA
  current_document_name : Option (List Char)
deriving DecidableEq, Repr

/-- The state at process start: all three globals are `None`. -/
def initialState : SystemState := ⟨none, none, none⟩

/-- The on-disk filesystem, as the list of paths that currently exist. -/
abbrev FileSystem := List (List Char)

/-- Index of the last occurrence of character `c` in `s` (Python `str.rfind`,
restricted to the cases used by `os.path`). -/
def lastIndexOf (c : Char) (s : List Char) : Option Nat :=
  ((s.enum.filter fun p => p.2 == c).map fun p => p.1).getLast?

/-- `os.path.splitext`: split a path into root and extension.  The extension
starts at the last dot, provided that dot lies after the last separator and
some earlier character of the base name is not a dot. -/
def splitext (p : List Char) : List Char × List Char :=
  match lastIndexOf '.' p with
  | none => (p, [])
  | some dotIndex =>
    let filenameIndex : Nat :=
      match lastIndexOf '/' p with
      | none => 0
      | some sepIndex => sepIndex + 1
    if filenameIndex ≤ dotIndex ∧
        ∃ k ∈ (List.range dotIndex).drop filenameIndex, p.getD k ' ' ≠ '.' then
      (p.take dotIndex, p.drop dotIndex)
    else (p, [])

/-- `os.path.basename`: the part of the path after the last separator. -/
def basename (p : List Char) : List Char :=
  match lastIndexOf '/' p with
  | none => p
  | some sepIndex => p.drop (sepIndex + 1)

/-- Python `str.lower`, character by character. -/
def lowerStr (s : List Char) : List Char := s.map Char.toLower

/-- The loader object chosen by `get_file_loader`. -/
inductive Loader where
  | pyPDF (file_path : List Char)
  | text (file_path : List Char)
deriving DecidableEq, Repr

/-- `get_file_loader` (main.py lines 62-69): dispatch on the lower-cased
extension, raising `ValueError` otherwise. -/
def get_file_loader (file_path : List Char) (file_extension : List Char) :
    Except (List Char) Loader :=
  if lowerStr file_extension = (".pdf").toList then
    .ok (.pyPDF file_path)
  else if lowerStr file_extension = (".txt").toList then
    .ok (.text file_path)
  else
    .error (("Formato de archivo no soportado: ").toList ++ file_extension)

/-- Outcomes of the external library calls made during one ingest: document
loading, splitting into chunks, embedding plus index construction
(`Chroma.from_documents`), and LLM plus chain construction
(`RetrievalQA.from_chain_type`).  Each call may raise, modelled as `.error`
carrying the exception text. -/
structure Externals where
  load : Loader → Except (List Char) (List Doc)
  split_documents : List Doc → Except (List Char) (List Doc)
  from_documents : List Doc → Except (List Char) VectorStore
  from_chain_type : VectorStore → Except (List Char) RetrievalQA

/-- `process_document` (main.py lines 71-117).  The state is threaded
explicitly: the global `vector_store` is assigned as soon as
`Chroma.from_documents` returns (line 94), `qa_chain` on line 107 and
`current_document_name` on line 115, so a later failure leaves the earlier
assignments in place. -/
def process_document (ex : Externals) (st : SystemState)
    (file_path : List Char) (file_extension : List Char) :
    SystemState × Except (List Char) Nat :=
  match get_file_loader file_path file_extension with
  | .error e => (st, .error e)
  | .ok loader =>
    match ex.load loader with
    | .error e => (st, .error e)
    | .ok documents =>
      match ex.split_documents documents with
      | .error e => (st, .error e)
      | .ok chunks =>
        match ex.from_documents chunks with
        | .error e => (st, .error e)
        | .ok vs =>
          match ex.from_chain_type vs with
          | .error e => ({ st with vector_store := some vs }, .error e)
          | .ok chain =>
            ({ st with vector_store := some vs, qa_chain := some chain,
                       current_document_name := some (basename file_path) },
             .ok chunks.length)

/-- A FastAPI endpoint result: a 200 payload or an `HTTPException`. -/
inductive HttpResult (α : Type) where
  | ok (value : α)
  | httpError (status_code : Nat) (detail : List Char)
deriving DecidableEq, Repr

/-- Response model of `/status`. -/
structure SystemStatusResponse where
  document_loaded : Bool
  document_name : Option (List Char)
  chunks_count : Option Nat
deriving DecidableEq, Repr

/-- Response model of `/process-document`. -/
structure DocumentProcessResponse where
  message : List Char
  document_name : List Char
  chunks_processed : Nat
deriving DecidableEq, Repr

/-- Response model of `/ask`. -/
structure QuestionResponse where
  answer : List Char
  sources : List (List Char)
deriving DecidableEq, Repr

/-- `get_status` (main.py lines 124-140). -/
def get_status (st : SystemState) : SystemStatusResponse :=
  match st.vector_store with
  | none => ⟨false, none, none⟩
  | some vs => ⟨true, st.current_document_name, some vs.docs.length⟩

/-- The uploaded file: FastAPI's `UploadFile.filename` may be absent. -/
structure UploadFile where
  filename : Option (List Char)
deriving DecidableEq, Repr

/-- Python truthiness test `not file.filename`: `None` and the empty string
are both falsy. -/
def filenameMissing (f : Option (List Char)) : Bool :=
  match f with
  | none => true
  | some s => s.isEmpty

/-- `process_document_endpoint` (main.py lines 142-178).  `temp_stem` is the
path `tempfile.NamedTemporaryFile` generates before the suffix is appended.
Returns the new globals, the new filesystem and the HTTP result.  Note that
`os.unlink` (line 169) runs only on the success path: an exception inside the
`try` block jumps to the `except` clause without deleting the temporary file,
and `current_document_name` ends up as the base name of the temporary path
(line 115), not of the uploaded filename. -/
def process_document_endpoint (ex : Externals) (temp_stem : List Char)
    (st : SystemState) (fs : FileSystem) (file : UploadFile) :
    SystemState × FileSystem × HttpResult DocumentProcessResponse :=
  if filenameMissing file.filename then
    (st, fs, .httpError 400 (("Nombre de archivo no proporcionado").toList))
  else
    let filename := file.filename.getD []
    let file_extension := (splitext filename).2
    if lowerStr file_extension ∉ [(".pdf").toList, (".txt").toList] then
      (st, fs, .httpError 400 (("Solo se permiten archivos PDF (.pdf) y texto (.txt)").toList))
    else
      let temp_file_path := temp_stem ++ file_extension
      let fs1 : FileSystem := temp_file_path :: fs
      match process_document ex st temp_file_path file_extension with
      | (st1, .ok chunks_count) =>
        (st1, fs1.erase temp_file_path,
          .ok ⟨("Documento procesado exitosamente. ").toList
                 ++ (toString chunks_count).toList ++ (" fragmentos creados.").toList,
               filename, chunks_count⟩)
      | (st1, .error e) =>
        (st1, fs1, .httpError 500 (("Error procesando documento: ").toList ++ e))

/-- Result of running the QA chain (`qa_chain({"query": ...})`): the answer
text and the retrieved source documents. -/
structure QARunResult where
  result : List Char
  source_documents : List Doc
deriving DecidableEq, Repr

/-- The source preview built in `ask_question` (main.py line 204): the first
100 characters plus a marker when the chunk is longer than 100 characters,
the whole text otherwise. -/
def preview_of (page_content : List Char) : List Char :=
  if page_content.length > 100 then page_content.take 100 ++ ("...").toList
  else page_content

/-- `ask_question` (main.py lines 180-210).  `run` is the external QA-chain
invocation.  The first component records whether the chain was invoked at
all; with `qa_chain` or `vector_store` equal to `None` the endpoint raises
400 before any retrieval. -/
def ask_question (run : RetrievalQA → List Char → Except (List Char) QARunResult)
    (st : SystemState) (question : List Char) :
    Bool × HttpResult QuestionResponse :=
  match st.qa_chain, st.vector_store with
  | some chain, some _ =>
    match run chain question with
    | .ok r =>
      (true, .ok ⟨r.result, r.source_documents.map fun d => preview_of d.page_content⟩)
    | .error e =>
      (true, .httpError 500 (("Error generando respuesta: ").toList ++ e))
  | _, _ =>
    (false, .httpError 400
      (("No hay ningún documento cargado. Por favor, sube un documento primero.").toList))

/-- Result of `clear_document`: the new globals, the new filesystem, whether
`shutil.rmtree` was called, what was printed, and the response message. -/
structure ClearOutcome where
  state : SystemState
  fs : FileSystem
  attempted_rmtree : Bool
  logs : List (List Char)
  message : List Char
deriving DecidableEq, Repr

/-- `clear_document` (main.py lines 212-230).  The three globals are reset
unconditionally; then, if the ChromaDB path exists, `shutil.rmtree` is
attempted (`rmtree_error = some e` models it raising), with any failure
printed and swallowed. -/
def clear_document (rmtree_error : Option (List Char)) (chroma_path : List Char)
    (_st : SystemState) (fs : FileSystem) : ClearOutcome :=
  if chroma_path ∈ fs then
    match rmtree_error with
    | none =>
      { state := initialState, fs := fs.filter fun p => p ≠ chroma_path,
        attempted_rmtree := true, logs := [],
        message := ("Documento limpiado exitosamente").toList }
    | some e =>
      { state := initialState, fs := fs, attempted_rmtree := true,
        logs := [("Error limpiando ChromaDB: ").toList ++ e],
        message := ("Documento limpiado exitosamente").toList }
  else
    { state := initialState, fs := fs, attempted_rmtree := false, logs := [],
      message := ("Documento limpiado exitosamente").toList }

/-- A chunk whose text is `n` copies of the character `c`. -/
def repChunk (c : Char) (n : Nat) : Doc := ⟨List.replicate n c⟩

/-- External behaviour in which every library call succeeds: loading yields
one page, splitting yields three chunks, embedding stores the chunks, and
chain construction binds the store. -/
def okExternals : Externals where
  load := fun _ => .ok [⟨("contenido").toList⟩]
  split_documents := fun _ => .ok [repChunk 'a' 150, repChunk 'b' 80, repChunk 'c' 10]
  from_documents := fun chunks => .ok ⟨chunks⟩
  from_chain_type := fun vs => .ok ⟨vs⟩

/-- External behaviour in which document loading raises. -/
def loadFailExternals : Externals where
  load := fun _ => .error (("fallo de carga").toList)
  split_documents := fun docs => .ok docs
  from_documents := fun chunks => .ok ⟨chunks⟩
  from_chain_type := fun vs => .ok ⟨vs⟩

/-- External behaviour in which everything up to and including index
construction succeeds but `RetrievalQA.from_chain_type` raises. -/
def chainFailExternals : Externals where
  load := fun _ => .ok [⟨("contenido").toList⟩]
  split_documents := fun _ => .ok [repChunk 'c' 10]
  from_documents := fun chunks => .ok ⟨chunks⟩
  from_chain_type := fun _ => .error (("fallo de cadena").toList)

/-- A loaded vector store used to exercise `ask_question`. -/
def previewVS : VectorStore := ⟨[repChunk 'd' 5]⟩

/-- A QA chain over `previewVS`. -/
def previewChain : RetrievalQA := ⟨previewVS⟩

/-- A loaded system state used to exercise `ask_question`. -/
def previewState : SystemState :=
  ⟨some previewVS, some previewChain, some (("doc.txt").toList)⟩

/-- A QA-chain run returning one 150-character and one 80-character chunk. -/
def previewRunResult : QARunResult :=
  ⟨("respuesta").toList, [⟨List.replicate 150 'a'⟩, ⟨List.replicate 80 'b'⟩]⟩

/-- A QA-chain invocation that always returns `previewRunResult`. -/
def previewRun : RetrievalQA → List Char → Except (List Char) QARunResult :=
  fun _ _ => .ok previewRunResult

/-- A QA-chain invocation that always raises. -/
def failRun : RetrievalQA → List Char → Except (List Char) QARunResult :=
  fun _ _ => .error (("sin conexión").toList)

/- Helper lemmas (not tied to any single claim). -/

theorem clear_document_state (rmtree_error : Option (List Char)) (chroma_path : List Char)
    (st : SystemState) (fs : FileSystem) :
    (clear_document rmtree_error chroma_path st fs).state = initialState := by
  unfold clear_document
  split
  · cases rmtree_error <;> rfl
  · rfl

theorem clear_document_message (rmtree_error : Option (List Char)) (chroma_path : List Char)
    (st : SystemState) (fs : FileSystem) :
    (clear_document rmtree_error chroma_path st fs).message =
      ("Documento limpiado exitosamente").toList := by
  unfold clear_document
  split
  · cases rmtree_error <;> rfl
  · rfl

theorem ask_question_loaded
    (run : RetrievalQA → List Char → Except (List Char) QARunResult)
    (st : SystemState) (question : List Char) (chain : RetrievalQA) (vs : VectorStore)
    (hc : st.qa_chain = some chain) (hv : st.vector_store = some vs) :
    ask_question run st question =
      (match run chain question with
       | .ok r =>
         (true, .ok ⟨r.result, r.source_documents.map fun d => preview_of d.page_content⟩)
       | .error e =>
         (true, .httpError 500 (("Error generando respuesta: ").toList ++ e))) := by
  unfold ask_question
  rw [hc, hv]

theorem process_document_error_state (ex : Externals) (st : SystemState)
    (file_path file_extension : List Char) (st1 : SystemState) (e : List Char)
    (h : process_document ex st file_path file_extension = (st1, .error e)) :
    st1.qa_chain = st.qa_chain ∧
    st1.current_document_name = st.current_document_name ∧
    (st1.vector_store = st.vector_store ∨
      ∃ vs, st1.vector_store = some vs ∧ ex.from_chain_type vs = .error e) := by
  unfold process_document at h
  rcases hgl : get_file_loader file_path file_extension with e0 | loader <;>
    simp only [hgl] at h
  · injection h with h1 h2
    subst h1
    exact ⟨rfl, rfl, Or.inl rfl⟩
  rcases hld : ex.load loader with e0 | documents <;> simp only [hld] at h
  · injection h with h1 h2
    subst h1
    exact ⟨rfl, rfl, Or.inl rfl⟩
  rcases hsp : ex.split_documents documents with e0 | chunks <;> simp only [hsp] at h
  · injection h with h1 h2
    subst h1
    exact ⟨rfl, rfl, Or.inl rfl⟩
  rcases hfd : ex.from_documents chunks with e0 | vs <;> simp only [hfd] at h
  · injection h with h1 h2
    subst h1
    exact ⟨rfl, rfl, Or.inl rfl⟩
  rcases hfc : ex.from_chain_type vs with e0 | chain <;> simp only [hfc] at h
  · injection h with h1 h2
    injection h2 with h3
    subst h3
    subst h1
    exact ⟨rfl, rfl, Or.inr ⟨vs, rfl, hfc⟩⟩
  · injection h with h1 h2
    exact Except.noConfusion h2

/-- Claim C3: for every question, Ask called while no document is loaded
(`vector_store` or `qa_chain` is `None`, in particular immediately after a
Clear) fails with HTTP 400 and the no-document message, and never invokes the
QA chain (the invocation flag is `false`). -/
theorem ask_while_empty_rejected
    (run : RetrievalQA → List Char → Except (List Char) QARunResult)
    (st : SystemState) (question : List Char)
    (h : st.vector_store = none ∨ st.qa_chain = none) :
    ask_question run st question =
      (false, .httpError 400
        (("No hay ningún documento cargado. Por favor, sube un documento primero.").toList)) ∧
    ∀ (rmtree_error : Option (List Char)) (chroma_path : List Char)
      (st0 : SystemState) (fs : FileSystem),
      ask_question run (clear_document rmtree_error chroma_path st0 fs).state question =
        (false, .httpError 400
          (("No hay ningún documento cargado. Por favor, sube un documento primero.").toList)) := by
  constructor
  · unfold ask_question
    rcases hqc : st.qa_chain with _ | c <;> rcases hvs : st.vector_store with _ | v <;>
      first
        | rfl
        | (rcases h with h | h <;> simp_all)
  · intro rmtree_error chroma_path st0 fs
    rw [clear_document_state]
    rfl

/-- Witness for C3 at a concrete state and a concrete post-Clear state. -/
theorem ask_while_empty_rejected_witness :
    ask_question failRun initialState (("hola").toList) =
      (false, .httpError 400
        (("No hay ningún documento cargado. Por favor, sube un documento primero.").toList)) ∧
    ask_question failRun
        (clear_document none (("./chroma_db").toList) previewState
          [("./chroma_db").toList]).state (("hola").toList) =
      (false, .httpError 400
        (("No hay ningún documento cargado. Por favor, sube un documento primero.").toList)) :=
  ⟨(ask_while_empty_rejected failRun initialState (("hola").toList) (Or.inl rfl)).1,
   (ask_while_empty_rejected failRun initialState (("hola").toList) (Or.inl rfl)).2
     none (("./chroma_db").toList) previewState [("./chroma_db").toList]⟩

/-- Claim C5: Clear is idempotent.  From any state and any deletion outcome it
returns the same success message and leaves the in-memory state Empty, so two
consecutive Clears both succeed and the state after the second equals the
state after the first. -/
theorem clear_idempotent (re1 re2 : Option (List Char)) (chroma_path : List Char)
    (st : SystemState) (fs : FileSystem) :
    (clear_document re1 chroma_path st fs).message =
      ("Documento limpiado exitosamente").toList ∧
    (clear_document re2 chroma_path (clear_document re1 chroma_path st fs).state
        (clear_document re1 chroma_path st fs).fs).message =
      (clear_document re1 chroma_path st fs).message ∧
    (clear_document re1 chroma_path st fs).state = initialState ∧
    (clear_document re2 chroma_path (clear_document re1 chroma_path st fs).state
        (clear_document re1 chroma_path st fs).fs).state =
      (clear_document re1 chroma_path st fs).state :=
  ⟨clear_document_message re1 chroma_path st fs,
   (clear_document_message re2 chroma_path _ _).trans
     (clear_document_message re1 chroma_path st fs).symm,
   clear_document_state re1 chroma_path st fs,
   (clear_document_state re2 chroma_path _ _).trans
     (clear_document_state re1 chroma_path st fs).symm⟩

/-- Claim C8: when deleting the on-disk index fails during Clear, the failure
is only logged: the state is still reset to Empty and the response message is
the same success message as when deletion succeeds. -/
theorem clear_cleanup_failure_swallowed (e chroma_path : List Char)
    (st : SystemState) (fs : FileSystem) :
    (clear_document (some e) chroma_path st fs).state = initialState ∧
    (clear_document (some e) chroma_path st fs).message =
      (clear_document none chroma_path st fs).message ∧
    (clear_document (some e) chroma_path st fs).message =
      ("Documento limpiado exitosamente").toList ∧
    (clear_document (some e) chroma_path st fs).logs =
      (if chroma_path ∈ fs then [("Error limpiando ChromaDB: ").toList ++ e] else []) := by
  refine ⟨clear_document_state _ _ _ _,
    (clear_document_message _ _ _ _).trans (clear_document_message _ _ _ _).symm,
    clear_document_message _ _ _ _, ?_⟩
  by_cases hmem : chroma_path ∈ fs
  · rw [if_pos hmem]
    unfold clear_document
    rw [if_pos hmem]
  · rw [if_neg hmem]
    unfold clear_document
    rw [if_neg hmem]

/-- Claim C10: Clear attempts deletion of the on-disk index path whenever that
path exists, even from the Empty state, and when deletion succeeds the path is
gone afterwards. -/
theorem clear_attempts_disk_deletion_when_empty (chroma_path : List Char)
    (fs : FileSystem) (re : Option (List Char)) (hmem : chroma_path ∈ fs) :
    (clear_document re chroma_path initialState fs).attempted_rmtree = true ∧
    chroma_path ∉ (clear_document none chroma_path initialState fs).fs := by
  constructor
  · unfold clear_document
    rw [if_pos hmem]
    cases re <;> rfl
  · unfold clear_document
    rw [if_pos hmem]
    simp [List.mem_filter]

/-- Witness for C10: a Clear issued in the Empty state with the default index
path present on disk. -/
theorem clear_attempts_disk_deletion_when_empty_witness :
    (clear_document (some (("permiso denegado").toList)) (("./chroma_db").toList)
        initialState [("./chroma_db").toList]).attempted_rmtree = true ∧
    ("./chroma_db").toList ∉
      (clear_document none (("./chroma_db").toList) initialState
        [("./chroma_db").toList]).fs :=
  clear_attempts_disk_deletion_when_empty (("./chroma_db").toList)
    [("./chroma_db").toList] (some (("permiso denegado").toList)) (by decide)

/-- Claim C6: in an Ask response the source previews are built by
`preview_of`: a chunk of at most 100 characters is returned whole, a longer
chunk is cut to its first 100 characters with the marker appended. -/
theorem ask_source_previews
    (run : RetrievalQA → List Char → Except (List Char) QARunResult)
    (st : SystemState) (question : List Char) (chain : RetrievalQA)
    (vs : VectorStore) (r : QARunResult)
    (hc : st.qa_chain = some chain) (hv : st.vector_store = some vs)
    (hr : run chain question = .ok r) :
    ask_question run st question =
      (true, .ok ⟨r.result, r.source_documents.map fun d => preview_of d.page_content⟩) ∧
    ∀ s : List Char,
      (s.length ≤ 100 → preview_of s = s) ∧
      (s.length > 100 → preview_of s = s.take 100 ++ ("...").toList) := by
  constructor
  · rw [ask_question_loaded run st question chain vs hc hv, hr]
  · intro s
    constructor
    · intro hle
      unfold preview_of
      rw [if_neg (by omega)]
    · intro hgt
      unfold preview_of
      rw [if_pos hgt]

set_option maxRecDepth 4000 in
/-- Witness for C6: a run retrieving a 150-character and an 80-character
chunk; the first preview is 100 characters plus the marker, the second is the
chunk itself. -/
theorem ask_source_previews_witness :
    ask_question previewRun previewState (("pregunta").toList) =
      (true, .ok ⟨("respuesta").toList,
        [List.replicate 100 'a' ++ ("...").toList, List.replicate 80 'b']⟩) := by
  have h := ask_source_previews previewRun previewState (("pregunta").toList)
    previewChain previewVS previewRunResult rfl rfl rfl
  rw [h.1]
  decide

/-- Claim C4: an upload with a missing or empty filename, or with an
extension outside the allow-list, is rejected with HTTP 400 and leaves the
state triple (and the filesystem) exactly as before the call. -/
theorem ingest_validation_failure (ex : Externals) (temp_stem : List Char)
    (st : SystemState) (fs : FileSystem) (file : UploadFile)
    (h : filenameMissing file.filename = true ∨
         lowerStr (splitext (file.filename.getD [])).2 ∉ [(".pdf").toList, (".txt").toList]) :
    (process_document_endpoint ex temp_stem st fs file).1 = st ∧
    (process_document_endpoint ex temp_stem st fs file).2.1 = fs ∧
    ((process_document_endpoint ex temp_stem st fs file).2.2 =
        .httpError 400 (("Nombre de archivo no proporcionado").toList) ∨
      (process_document_endpoint ex temp_stem st fs file).2.2 =
        .httpError 400 (("Solo se permiten archivos PDF (.pdf) y texto (.txt)").toList)) := by
  simp only [process_document_endpoint]
  by_cases hm : filenameMissing file.filename = true
  · rw [if_pos hm]
    exact ⟨rfl, rfl, Or.inl rfl⟩
  · rcases h with h | h
    · exact absurd h hm
    · rw [if_neg hm, if_pos h]
      exact ⟨rfl, rfl, Or.inr rfl⟩

/-- Witness for C4: uploading notas.docx from a loaded state. -/
theorem ingest_validation_failure_witness :
    (process_document_endpoint okExternals (("/tmp/tmpv").toList) previewState
        [("./chroma_db").toList] ⟨some (("notas.docx").toList)⟩).1 = previewState ∧
    (process_document_endpoint okExternals (("/tmp/tmpv").toList) previewState
        [("./chroma_db").toList] ⟨some (("notas.docx").toList)⟩).2.1 =
      [("./chroma_db").toList] ∧
    ((process_document_endpoint okExternals (("/tmp/tmpv").toList) previewState
        [("./chroma_db").toList] ⟨some (("notas.docx").toList)⟩).2.2 =
        .httpError 400 (("Nombre de archivo no proporcionado").toList) ∨
      (process_document_endpoint okExternals (("/tmp/tmpv").toList) previewState
        [("./chroma_db").toList] ⟨some (("notas.docx").toList)⟩).2.2 =
        .httpError 400 (("Solo se permiten archivos PDF (.pdf) y texto (.txt)").toList)) :=
  ingest_validation_failure okExternals (("/tmp/tmpv").toList) previewState
    [("./chroma_db").toList] ⟨some (("notas.docx").toList)⟩ (Or.inr (by decide))

/-- Claim C9: extension validation is case-insensitive — for a filename whose
extension lower-cases to .pdf or .txt, the upload passes validation (any HTTP
error out of the endpoint is the 500 processing error, never a 400), and
`get_file_loader` routes to the loader of the corresponding lowercase
extension. -/
theorem extension_case_insensitive (name file_path : List Char) (hne : name ≠ [])
    (h : lowerStr (splitext name).2 = (".pdf").toList ∨
         lowerStr (splitext name).2 = (".txt").toList) :
    (∀ (ex : Externals) (temp_stem : List Char) (st : SystemState) (fs : FileSystem)
        (status : Nat) (d : List Char),
        (process_document_endpoint ex temp_stem st fs ⟨some name⟩).2.2 =
          .httpError status d → status = 500) ∧
    (lowerStr (splitext name).2 = (".pdf").toList →
      get_file_loader file_path (splitext name).2 = .ok (.pyPDF file_path)) ∧
    (lowerStr (splitext name).2 = (".txt").toList →
      get_file_loader file_path (splitext name).2 = .ok (.text file_path)) := by
  have hmem : lowerStr (splitext name).2 ∈ [(".pdf").toList, (".txt").toList] := by
    rcases h with h | h <;> simp [h]
  have hfm : filenameMissing (some name) = false := by
    cases name with
    | nil => exact absurd rfl hne
    | cons a l => rfl
  refine ⟨?_, ?_, ?_⟩
  · intro ex temp_stem st fs status d hh
    simp only [process_document_endpoint, Option.getD] at hh
    rw [if_neg (by simp [hfm])] at hh
    rw [if_neg (not_not_intro hmem)] at hh
    rcases hpd : process_document ex st (temp_stem ++ (splitext name).2)
        (splitext name).2 with ⟨st2, r⟩
    rw [hpd] at hh
    cases r with
    | ok c => exact HttpResult.noConfusion hh
    | error e =>
      injection hh with h1 h2
      exact h1.symm
  · intro h2
    simp [get_file_loader, h2]
  · intro h2
    simp [get_file_loader, h2]

/-- Witness for C9: informe.TXT passes validation and is routed to the plain
text loader. -/
theorem extension_case_insensitive_witness :
    get_file_loader (("/tmp/tmpx.TXT").toList) (splitext (("informe.TXT").toList)).2 =
      .ok (.text (("/tmp/tmpx.TXT").toList)) :=
  (extension_case_insensitive (("informe.TXT").toList) (("/tmp/tmpx.TXT").toList)
      (by decide) (Or.inr (by decide))).2.2 (by decide)

set_option maxRecDepth 4000 in
/-- Claim C1 is false as stated: with every step up to and including index
construction succeeding and `RetrievalQA.from_chain_type` raising, the ingest
call fails with HTTP 500 yet the vector-store global has already been
replaced, so the state triple after the call differs from the one before. -/
theorem ingest_rollback_counterexample :
    (process_document_endpoint chainFailExternals (("/tmp/tmpq").toList) initialState []
        ⟨some (("doc.pdf").toList)⟩).2.2 =
      .httpError 500 (("Error procesando documento: fallo de cadena").toList) ∧
    (process_document_endpoint chainFailExternals (("/tmp/tmpq").toList) initialState []
        ⟨some (("doc.pdf").toList)⟩).1 ≠ initialState := by
  decide

/-- Claim C1 (amended): when an ingest call fails, the QA-chain global and the
current document name are unchanged from before the call; the vector store is
also unchanged unless the failure happened in pipeline construction after the
new index was built, in which case the call still surfaces HTTP 500 but the
vector store already holds the new index. -/
theorem ingest_failure_state_effects (ex : Externals) (temp_stem : List Char)
    (st st1 : SystemState) (fs fs1 : FileSystem) (file : UploadFile)
    (status : Nat) (d : List Char)
    (h : process_document_endpoint ex temp_stem st fs file = (st1, fs1, .httpError status d)) :
    st1.qa_chain = st.qa_chain ∧
    st1.current_document_name = st.current_document_name ∧
    (st1.vector_store = st.vector_store ∨
      (status = 500 ∧ ∃ vs e, st1.vector_store = some vs ∧
        ex.from_chain_type vs = .error e)) := by
  simp only [process_document_endpoint] at h
  by_cases hm : filenameMissing file.filename = true
  · rw [if_pos hm] at h
    injection h with h1 h2
    subst h1
    exact ⟨rfl, rfl, Or.inl rfl⟩
  · rw [if_neg hm] at h
    by_cases hext :
        lowerStr (splitext (file.filename.getD [])).2 ∉ [(".pdf").toList, (".txt").toList]
    · rw [if_pos hext] at h
      injection h with h1 h2
      subst h1
      exact ⟨rfl, rfl, Or.inl rfl⟩
    · rw [if_neg hext] at h
      rcases hpd : process_document ex st (temp_stem ++ (splitext (file.filename.getD [])).2)
          (splitext (file.filename.getD [])).2 with ⟨st2, r⟩
      rw [hpd] at h
      cases r with
      | ok c =>
        injection h with h1 h2
        injection h2 with h3 h4
        exact HttpResult.noConfusion h4
      | error e =>
        injection h with h1 h2
        injection h2 with h3 h4
        injection h4 with h5 h6
        subst h1
        have hps := process_document_error_state ex st _ _ st2 e hpd
        refine ⟨hps.1, hps.2.1, ?_⟩
        rcases hps.2.2 with hvs | ⟨vs, hvs, hfc⟩
        · exact Or.inl hvs
        · exact Or.inr ⟨h5.symm, vs, e, hvs, hfc⟩

set_option maxRecDepth 4000 in
/-- Witness for the amended C1 at a concrete failing ingest: the resulting
state keeps the Empty QA chain and name but holds the freshly built index. -/
theorem ingest_failure_state_effects_witness :
    (⟨some ⟨[repChunk 'c' 10]⟩, none, none⟩ : SystemState).qa_chain = initialState.qa_chain ∧
    (⟨some ⟨[repChunk 'c' 10]⟩, none, none⟩ : SystemState).current_document_name =
      initialState.current_document_name ∧
    ((⟨some ⟨[repChunk 'c' 10]⟩, none, none⟩ : SystemState).vector_store =
        initialState.vector_store ∨
      ((500 : Nat) = 500 ∧ ∃ vs e,
        (⟨some ⟨[repChunk 'c' 10]⟩, none, none⟩ : SystemState).vector_store = some vs ∧
        chainFailExternals.from_chain_type vs = .error e)) :=
  ingest_failure_state_effects chainFailExternals (("/tmp/tmpq").toList) initialState
    ⟨some ⟨[repChunk 'c' 10]⟩, none, none⟩ [] [("/tmp/tmpq.pdf").toList]
    ⟨some (("doc.pdf").toList)⟩ 500
    (("Error procesando documento: fallo de cadena").toList) (by decide)

set_option maxRecDepth 8000 in
/-- Claim C2 fails on the code: a successful ingest of report.pdf does
transition Empty to Loaded with three chunks, but line 115 of main.py sets
`current_document_name` from the temporary path, so GetStatus reports the
temporary file's base name instead of the uploaded filename's base name. -/
theorem ingest_status_reports_temp_name :
    (process_document_endpoint okExternals (("/tmp/tmpw1abc").toList) initialState []
        ⟨some (("report.pdf").toList)⟩).2.2 =
      .ok ⟨("Documento procesado exitosamente. 3 fragmentos creados.").toList,
           ("report.pdf").toList, 3⟩ ∧
    get_status (process_document_endpoint okExternals (("/tmp/tmpw1abc").toList) initialState []
        ⟨some (("report.pdf").toList)⟩).1 =
      ⟨true, some (("tmpw1abc.pdf").toList), some 3⟩ ∧
    (get_status (process_document_endpoint okExternals (("/tmp/tmpw1abc").toList) initialState []
        ⟨some (("report.pdf").toList)⟩).1).document_name ≠
      some (basename (("report.pdf").toList)) := by
  decide

set_option maxRecDepth 8000 in
/-- Claim C7 fails on the code: when processing raises after the upload was
written to the temporary file, control jumps to the `except` clause without
running `os.unlink`, so the temporary file is still on disk when the call
returns; on the success path it is deleted. -/
theorem temp_file_leaked_on_failure :
    (process_document_endpoint loadFailExternals (("/tmp/tmpw").toList) initialState []
        ⟨some (("doc.pdf").toList)⟩).2.1 = [("/tmp/tmpw.pdf").toList] ∧
    (process_document_endpoint loadFailExternals (("/tmp/tmpw").toList) initialState []
        ⟨some (("doc.pdf").toList)⟩).2.2 =
      .httpError 500 (("Error procesando documento: fallo de carga").toList) ∧
    (process_document_endpoint okExternals (("/tmp/tmpw").toList) initialState []
        ⟨some (("doc.pdf").toList)⟩).2.1 = [] := by
  decide

end DocuChat
